import Mathlib

/-!
Shallow embedding of the qmese banking system (`src/main.py`).

Balances and amounts are modelled as rationals (the Python code uses
floats, but every operation here is exact +, -, *, /, so ℚ is faithful).
Timestamps are abstract `Nat` values passed in by the caller, standing for
`datetime.datetime.now()`.  Each mutating method returns the new object
together with a `Msg` value standing for the message the Python code
prints on that path (the sole feedback channel of the source).
`random`-generated identifiers (account numbers, session tokens, PINs)
are taken as parameters.
-/

namespace QmeseBanking

inductive TransactionType
  | Deposit
  | Withdrawal
  | Transfer
  | Interest
deriving DecidableEq, Repr

/-- Mirrors `class Transaction` (src/main.py:9-16): a record of
transaction type, amount and creation timestamp, immutable afterward. -/
structure Transaction where
  transaction_type : TransactionType
  amount : ℚ
  timestamp : Nat
deriving DecidableEq, Repr

/-- The messages printed by the source on each code path, used here as
the observable success/error report of every operation. -/
inductive Msg
  | deposited
  | invalidDeposit
  | withdrew
  | invalidWithdrawal
  | accountLocked
  | normalNoInterest
  | debitNoInterest
  | interestAdded
  | lockedInterest
  | transferAccountsLocked
  | transferInvalid
  | transferred
deriving DecidableEq, Repr

/-- Discriminator for the two subclasses of the abstract `Account` base
(`NormalAccount`, `DebitAccount`).  `SavingsAccount` does not inherit
from `Account` in the source and is a separate structure below. -/
inductive AccountKind
  | Normal
  | Debit
deriving DecidableEq, Repr

/-- Mirrors `class Account` (src/main.py:73-114) together with its
subclass discriminator: account number, balance, locked flag and the
append-only transaction history. -/
structure Account where
  account_number : String
  balance : ℚ
  is_locked : Bool
  transactions : List Transaction
  kind : AccountKind
deriving DecidableEq, Repr

/-- `Account.deposit` (src/main.py:84-92): if not locked and amount > 0,
add to balance and append a Deposit transaction; elif locked report
locked; else report invalid amount. -/
def Account.deposit (a : Account) (amount : ℚ) (now : Nat) : Account × Msg :=
  if a.is_locked = false ∧ 0 < amount then
    ({ a with balance := a.balance + amount,
              transactions := a.transactions ++ [⟨.Deposit, amount, now⟩] },
     .deposited)
  else if a.is_locked = true then (a, .accountLocked)
  else (a, .invalidDeposit)

/-- `NormalAccount.withdraw` (src/main.py:118-127) and
`DebitAccount.withdraw` (src/main.py:134-142), dispatched on the
subclass.  Normal: not locked and (0 < amount <= balance or
(overdraft_protection and amount <= balance + 100)).  Debit: not locked
and 0 < amount <= balance (overdraft flag ignored). -/
def Account.withdraw (a : Account) (amount : ℚ) (overdraft_protection : Bool)
    (now : Nat) : Account × Msg :=
  match a.kind with
  | .Normal =>
    if a.is_locked = false ∧
        ((0 < amount ∧ amount ≤ a.balance) ∨
          (overdraft_protection = true ∧ amount ≤ a.balance + 100)) then
      ({ a with balance := a.balance - amount,
                transactions := a.transactions ++ [⟨.Withdrawal, amount, now⟩] },
       .withdrew)
    else if a.is_locked = true then (a, .accountLocked)
    else (a, .invalidWithdrawal)
  | .Debit =>
    if a.is_locked = false ∧ (0 < amount ∧ amount ≤ a.balance) then
      ({ a with balance := a.balance - amount,
                transactions := a.transactions ++ [⟨.Withdrawal, amount, now⟩] },
       .withdrew)
    else if a.is_locked = true then (a, .accountLocked)
    else (a, .invalidWithdrawal)

/-- `Account.get_balance` (src/main.py:98-99). -/
def Account.get_balance (a : Account) : ℚ := a.balance

/-- `Account.lock_account` (src/main.py:101-103): sets the flag, no
effect on balance or history. -/
def Account.lock_account (a : Account) : Account := { a with is_locked := true }

/-- `Account.unlock_account` (src/main.py:105-107). -/
def Account.unlock_account (a : Account) : Account := { a with is_locked := false }

/-- `NormalAccount.calculate_interest` (src/main.py:129-130) and
`DebitAccount.calculate_interest` (src/main.py:144-145): both only print
that the account type does not earn interest; neither touches the
balance or the history. -/
def Account.calculate_interest (a : Account) (rate : ℚ) : Account × Msg :=
  match a.kind, rate with
  | .Normal, _ => (a, .normalNoInterest)
  | .Debit, _ => (a, .debitNoInterest)

/-- Mirrors `class SavingsAccount` (src/main.py:148-200), which
duplicates the base fields instead of inheriting from `Account`. -/
structure SavingsAccount where
  account_number : String
  balance : ℚ
  is_locked : Bool
  transactions : List Transaction
deriving DecidableEq, Repr

/-- `SavingsAccount.deposit` (src/main.py:155-163), textually identical
to the base class deposit. -/
def SavingsAccount.deposit (s : SavingsAccount) (amount : ℚ) (now : Nat) :
    SavingsAccount × Msg :=
  if s.is_locked = false ∧ 0 < amount then
    ({ s with balance := s.balance + amount,
              transactions := s.transactions ++ [⟨.Deposit, amount, now⟩] },
     .deposited)
  else if s.is_locked = true then (s, .accountLocked)
  else (s, .invalidDeposit)

/-- `SavingsAccount.withdrawal` (src/main.py:165-173): `if self.is_locked`
performs the decrement (an inverted lock check, with no amount test);
the `elif self.is_locked` branch of the source is dead code; the `else`
branch reports an invalid withdrawal. -/
def SavingsAccount.withdrawal (s : SavingsAccount) (amount : ℚ) (now : Nat) :
    SavingsAccount × Msg :=
  if s.is_locked = true then
    ({ s with balance := s.balance - amount,
              transactions := s.transactions ++ [⟨.Withdrawal, amount, now⟩] },
     .withdrew)
  else if s.is_locked = true then (s, .accountLocked)
  else (s, .invalidWithdrawal)

/-- `SavingsAccount.get_balance` (src/main.py:175-176). -/
def SavingsAccount.get_balance (s : SavingsAccount) : ℚ := s.balance

/-- `SavingsAccount.lock_account` (src/main.py:178-180). -/
def SavingsAccount.lock_account (s : SavingsAccount) : SavingsAccount :=
  { s with is_locked := true }

/-- `SavingsAccount.unlock_account` (src/main.py:182-184). -/
def SavingsAccount.unlock_account (s : SavingsAccount) : SavingsAccount :=
  { s with is_locked := false }

/-- `SavingsAccount.calculate_interest` (src/main.py:193-200): when not
locked, `interest = balance + rate / 100` is added to the balance and
recorded as an Interest transaction; when locked, reports an error. -/
def SavingsAccount.calculate_interest (s : SavingsAccount) (rate : ℚ) (now : Nat) :
    SavingsAccount × Msg :=
  if s.is_locked = false then
    let interest := s.balance + rate / 100
    ({ s with balance := s.balance + interest,
              transactions := s.transactions ++ [⟨.Interest, interest, now⟩] },
     .interestAdded)
  else (s, .lockedInterest)

/-- Mirrors `class Customer` (src/main.py:203-213); the PIN, randomly
generated in the source constructor, is carried as a field. -/
structure Customer where
  customer_id : Int
  accounts : List Account
  pin : String
deriving DecidableEq, Repr

/-- `Customer.authenticate` (src/main.py:209-210): exact string equality
with the stored PIN. -/
def Customer.authenticate (c : Customer) (entered_pin : String) : Bool :=
  entered_pin == c.pin

/-- `Customer.add_account` (src/main.py:212-213). -/
def Customer.add_account (c : Customer) (account : Account) : Customer :=
  { c with accounts := c.accounts ++ [account] }

/-- `Customer.transfer` (src/main.py:215-232), a static method: guard on
either account locked, then on `amount <= 0 or amount > sender balance`;
otherwise `sender.withdraw(amount)` (default overdraft flag False),
`recipient.deposit(amount)`, then the same Transfer transaction object
is appended to both histories.  The three timestamps stand for the three
`datetime.datetime.now()` calls. -/
def Customer.transfer (sender_account recipient_account : Account) (amount : ℚ)
    (tW tD tT : Nat) : (Account × Account) × Msg :=
  if sender_account.is_locked = true ∨ recipient_account.is_locked = true then
    ((sender_account, recipient_account), .transferAccountsLocked)
  else if amount ≤ 0 ∨ amount > sender_account.get_balance then
    ((sender_account, recipient_account), .transferInvalid)
  else
    let s1 := (sender_account.withdraw amount false tW).1
    let r1 := (recipient_account.deposit amount tD).1
    let t : Transaction := ⟨.Transfer, amount, tT⟩
    (({ s1 with transactions := s1.transactions ++ [t] },
      { r1 with transactions := r1.transactions ++ [t] }),
     .transferred)

/-- Mirrors `class Bank` (src/main.py:19-70): registered customers in
insertion order, and the `active_sessions` dict modelled as a map from
session tokens to customers. -/
structure Bank where
  customers : List Customer
  active_sessions : String → Option Customer

/-- `Bank.create_account` (src/main.py:24-34): "Normal" and "Debit"
construct the corresponding subclass with the given initial balance;
any other type string raises `ValueError("Invalid account type.")`.
The random account number is a parameter. -/
def Bank.create_account (account_type : String) (account_number : String)
    (initial_balance : ℚ) : Except String Account :=
  if account_type = "Normal" then
    .ok ⟨account_number, initial_balance, false, [], .Normal⟩
  else if account_type = "Debit" then
    .ok ⟨account_number, initial_balance, false, [], .Debit⟩
  else
    .error "Invalid account type."

/-- `Bank.add_customer` (src/main.py:36-37). -/
def Bank.add_customer (b : Bank) (customer : Customer) : Bank :=
  { b with customers := b.customers ++ [customer] }

/-- The `for customer in self.customers` loop of
`Bank.authenticate_customer` (src/main.py:39-45): on the first customer
whose `authenticate(pin)` succeeds, store the session under the freshly
generated token and return the token; if the loop finishes, return None. -/
def authenticateLoop (b : Bank) (remaining : List Customer) (pin token : String) :
    Bank × Option String :=
  match remaining with
  | [] => (b, none)
  | c :: rest =>
    if c.authenticate pin then
      ({ b with active_sessions :=
          fun t => if t = token then some c else b.active_sessions t },
       some token)
    else
      authenticateLoop b rest pin token

/-- `Bank.authenticate_customer` (src/main.py:39-45); the random session
token is a parameter. -/
def Bank.authenticate_customer (b : Bank) (pin token : String) : Bank × Option String :=
  authenticateLoop b b.customers pin token

/-- The signed value a transaction contributes to the balance/history
invariant: Deposit and Interest amounts count positive, Withdrawal
amounts negative; the Transfer bookkeeping entries appended by
`Customer.transfer` (on top of the Withdrawal/Deposit entries that carry
the balance change) contribute nothing. -/
def Transaction.signedAmount (t : Transaction) : ℚ :=
  match t.transaction_type with
  | .Deposit => t.amount
  | .Interest => t.amount
  | .Withdrawal => - t.amount
  | .Transfer => 0

/-- Signed sum of a transaction history. -/
def historySum (ts : List Transaction) : ℚ :=
  (ts.map Transaction.signedAmount).sum

/-- One observable mutation step on an account: deposit, withdraw,
calculate_interest, lock, unlock, or participation in a
`Customer.transfer` as sender or as recipient. -/
inductive Step : Account → Account → Prop
  | deposit (a : Account) (amount : ℚ) (now : Nat) :
      Step a (a.deposit amount now).1
  | withdraw (a : Account) (amount : ℚ) (odp : Bool) (now : Nat) :
      Step a (a.withdraw amount odp now).1
  | interest (a : Account) (rate : ℚ) :
      Step a (a.calculate_interest rate).1
  | lock (a : Account) :
      Step a a.lock_account
  | unlock (a : Account) :
      Step a a.unlock_account
  | transferAsSender (a other : Account) (amount : ℚ) (tW tD tT : Nat) :
      Step a (Customer.transfer a other amount tW tD tT).1.1
  | transferAsRecipient (a other : Account) (amount : ℚ) (tW tD tT : Nat) :
      Step a (Customer.transfer other a amount tW tD tT).1.2

/-- States reachable from a given account state by any sequence of
operations. -/
inductive Reachable (init : Account) : Account → Prop
  | refl : Reachable init init
  | step {a b : Account} : Reachable init a → Step a b → Reachable init b

/-- A freshly created account (`Account.__init__`, src/main.py:74-78):
given balance, unlocked, empty history. -/
def mkAccount (account_number : String) (balance : ℚ) (kind : AccountKind) : Account :=
  ⟨account_number, balance, false, [], kind⟩

/-! ## Helper lemmas -/

theorem historySum_append (l : List Transaction) (t : Transaction) :
    historySum (l ++ [t]) = historySum l + t.signedAmount := by
  simp [historySum]

theorem withdraw_succeeds (a : Account) (amount : ℚ) (odp : Bool) (now : Nat)
    (hl : a.is_locked = false) (h0 : 0 < amount) (hb : amount ≤ a.balance) :
    a.withdraw amount odp now =
      ({ a with balance := a.balance - amount,
                transactions := a.transactions ++ [⟨.Withdrawal, amount, now⟩] },
       .withdrew) := by
  cases hk : a.kind <;> simp [Account.withdraw, hk, hl, h0, hb]

theorem deposit_succeeds (a : Account) (amount : ℚ) (now : Nat)
    (hl : a.is_locked = false) (h0 : 0 < amount) :
    a.deposit amount now =
      ({ a with balance := a.balance + amount,
                transactions := a.transactions ++ [⟨.Deposit, amount, now⟩] },
       .deposited) := by
  simp [Account.deposit, hl, h0]

theorem transfer_eq (s r : Account) (amount : ℚ) (tW tD tT : Nat)
    (hs : s.is_locked = false) (hr : r.is_locked = false)
    (h0 : 0 < amount) (hb : amount ≤ s.balance) :
    Customer.transfer s r amount tW tD tT =
      (({ s with balance := s.balance - amount,
                 transactions := s.transactions ++
                   [⟨.Withdrawal, amount, tW⟩, ⟨.Transfer, amount, tT⟩] },
        { r with balance := r.balance + amount,
                 transactions := r.transactions ++
                   [⟨.Deposit, amount, tD⟩, ⟨.Transfer, amount, tT⟩] }),
       .transferred) := by
  have hW := withdraw_succeeds s amount false tW hs h0 hb
  have hD := deposit_succeeds r amount tD hr h0
  have hg : ¬ (amount ≤ 0 ∨ amount > s.get_balance) := by
    rw [not_or]
    exact ⟨not_le.mpr h0, not_lt.mpr hb⟩
  simp [Customer.transfer, hs, hr, hg, hW, hD]

theorem transfer_unchanged (s r : Account) (amount : ℚ) (tW tD tT : Nat)
    (h : ¬ (s.is_locked = false ∧ r.is_locked = false ∧ 0 < amount ∧ amount ≤ s.balance)) :
    (Customer.transfer s r amount tW tD tT).1 = (s, r) ∧
      ((Customer.transfer s r amount tW tD tT).2 = .transferAccountsLocked ∨
        (Customer.transfer s r amount tW tD tT).2 = .transferInvalid) := by
  unfold Customer.transfer
  by_cases h1 : s.is_locked = true ∨ r.is_locked = true
  · simp [h1]
  · have hs : s.is_locked = false := by
      simpa using (not_or.mp h1).1
    have hr : r.is_locked = false := by
      simpa using (not_or.mp h1).2
    have h2 : amount ≤ 0 ∨ amount > s.get_balance := by
      by_contra hc
      rw [not_or] at hc
      exact h ⟨hs, hr, not_le.mp hc.1, not_lt.mp hc.2⟩
    simp [h1, h2]

/-! ## Claim theorems -/

/-- C2: Transfer failure atomicity — if the sender is locked, or the
recipient is locked, or not (0 < amount <= sender balance), then
`Customer.transfer` reports an error (the locked or the invalid-amount
message) and leaves both accounts, balances and histories included,
completely unchanged. -/
theorem transfer_failure_atomicity (s r : Account) (amount : ℚ) (tW tD tT : Nat)
    (h : s.is_locked = true ∨ r.is_locked = true ∨ ¬ (0 < amount ∧ amount ≤ s.balance)) :
    (Customer.transfer s r amount tW tD tT).1 = (s, r) ∧
      ((Customer.transfer s r amount tW tD tT).2 = .transferAccountsLocked ∨
        (Customer.transfer s r amount tW tD tT).2 = .transferInvalid) := by
  apply transfer_unchanged
  rintro ⟨hs, hr, h0, hb⟩
  rcases h with h | h | h
  · rw [hs] at h
    exact Bool.false_ne_true h
  · rw [hr] at h
    exact Bool.false_ne_true h
  · exact h ⟨h0, hb⟩

/-- Witness for C2: with sender balance 1000 (unlocked Normal) and the
recipient locked, a transfer of 300 leaves both accounts unchanged (in
particular the sender balance stays 1000) and reports the locked error. -/
theorem transfer_failure_atomicity_witness :
    (Customer.transfer (mkAccount "S" 1000 .Normal)
        ((mkAccount "R" 500 .Debit).lock_account) 300 0 1 2).1
      = (mkAccount "S" 1000 .Normal, (mkAccount "R" 500 .Debit).lock_account) ∧
      ((Customer.transfer (mkAccount "S" 1000 .Normal)
          ((mkAccount "R" 500 .Debit).lock_account) 300 0 1 2).2 = .transferAccountsLocked ∨
        (Customer.transfer (mkAccount "S" 1000 .Normal)
            ((mkAccount "R" 500 .Debit).lock_account) 300 0 1 2).2 = .transferInvalid) :=
  transfer_failure_atomicity _ _ _ _ _ _ (Or.inr (Or.inl rfl))

/-- C3: Transfer success — for unlocked sender and recipient and
0 < amount <= sender balance, the transfer decreases the sender balance
by the amount, increases the recipient balance by the amount, and
appends a Transfer transaction to both histories, after the sender's
Withdrawal entry and the recipient's Deposit entry respectively. -/
theorem transfer_success_effects (s r : Account) (amount : ℚ) (tW tD tT : Nat)
    (hs : s.is_locked = false) (hr : r.is_locked = false)
    (h0 : 0 < amount) (hb : amount ≤ s.balance) :
    (Customer.transfer s r amount tW tD tT).1.1.balance = s.balance - amount ∧
      (Customer.transfer s r amount tW tD tT).1.2.balance = r.balance + amount ∧
      (Customer.transfer s r amount tW tD tT).1.1.transactions
        = s.transactions ++ [⟨.Withdrawal, amount, tW⟩, ⟨.Transfer, amount, tT⟩] ∧
      (Customer.transfer s r amount tW tD tT).1.2.transactions
        = r.transactions ++ [⟨.Deposit, amount, tD⟩, ⟨.Transfer, amount, tT⟩] ∧
      (Customer.transfer s r amount tW tD tT).2 = .transferred := by
  rw [transfer_eq s r amount tW tD tT hs hr h0 hb]
  exact ⟨rfl, rfl, rfl, rfl, rfl⟩

/-- Witness for C3, the spec's end-to-end example: a Normal sender with
balance 1300 transfers 300 to a Debit account with balance 500, leaving
the sender at 1000 and the recipient at 800, with the Transfer entries
appended after the Withdrawal and Deposit entries. -/
theorem transfer_success_effects_witness :
    (Customer.transfer (mkAccount "S" 1300 .Normal) (mkAccount "R" 500 .Debit)
        300 0 1 2).1.1.balance = 1000 ∧
      (Customer.transfer (mkAccount "S" 1300 .Normal) (mkAccount "R" 500 .Debit)
          300 0 1 2).1.2.balance = 800 ∧
      (Customer.transfer (mkAccount "S" 1300 .Normal) (mkAccount "R" 500 .Debit)
          300 0 1 2).1.1.transactions
        = [⟨.Withdrawal, 300, 0⟩, ⟨.Transfer, 300, 2⟩] ∧
      (Customer.transfer (mkAccount "S" 1300 .Normal) (mkAccount "R" 500 .Debit)
          300 0 1 2).1.2.transactions
        = [⟨.Deposit, 300, 1⟩, ⟨.Transfer, 300, 2⟩] := by
  have h := transfer_success_effects (mkAccount "S" 1300 .Normal) (mkAccount "R" 500 .Debit)
    300 0 1 2 rfl rfl (by norm_num) (by norm_num [mkAccount])
  refine ⟨?_, ?_, ?_, ?_⟩
  · rw [h.1]
    norm_num [mkAccount]
  · rw [h.2.1]
    norm_num [mkAccount]
  · rw [h.2.2.1]
    rfl
  · rw [h.2.2.2.1]
    rfl

/-- C4 counterexample: applying 2.5% interest to an unlocked Normal
account with balance 1000 does NOT yield balance 1025 — the source's
`NormalAccount.calculate_interest` only prints that normal accounts do
not earn interest, so the balance stays 1000. -/
theorem normal_interest_counterexample :
    ((mkAccount "N" 1000 .Normal).calculate_interest (5 / 2)).1.balance ≠ 1025 := by
  norm_num [Account.calculate_interest, mkAccount]

/-- C4 amended: for every Normal account and every rate,
`calculate_interest` is a pure no-op that reports that normal accounts
do not earn interest; balance and transaction history are unchanged
(and no Interest transaction is recorded, even on a zero balance). -/
theorem normal_interest_no_op (a : Account) (rate : ℚ) (hk : a.kind = .Normal) :
    a.calculate_interest rate = (a, .normalNoInterest) := by
  simp [Account.calculate_interest, hk]

/-- Witness for the amended C4 at a concrete unlocked Normal account. -/
theorem normal_interest_no_op_witness :
    (mkAccount "N" 1000 .Normal).calculate_interest (5 / 2)
      = (mkAccount "N" 1000 .Normal, .normalNoInterest) :=
  normal_interest_no_op (mkAccount "N" 1000 .Normal) (5 / 2) rfl

/-- C5: Normal account withdraw eligibility — on an unlocked Normal
account, `withdraw(amount, overdraft_protection)` succeeds exactly when
0 < amount <= balance, or overdraft protection is set and
amount <= balance + 100 (a fixed absolute ceiling); on success it
decreases the balance by the amount and appends a Withdrawal
transaction, otherwise it reports an error and changes nothing. -/
theorem normal_withdraw_eligibility (a : Account) (amount : ℚ) (odp : Bool) (now : Nat)
    (hk : a.kind = .Normal) (hl : a.is_locked = false) :
    (((0 < amount ∧ amount ≤ a.balance) ∨ (odp = true ∧ amount ≤ a.balance + 100)) →
        a.withdraw amount odp now =
          ({ a with balance := a.balance - amount,
                    transactions := a.transactions ++ [⟨.Withdrawal, amount, now⟩] },
           .withdrew)) ∧
      (¬ ((0 < amount ∧ amount ≤ a.balance) ∨ (odp = true ∧ amount ≤ a.balance + 100)) →
        a.withdraw amount odp now = (a, .invalidWithdrawal)) := by
  constructor <;> intro h <;> simp [Account.withdraw, hk, hl, h]

/-- Witness for C5: an unlocked Normal account with balance 1000 allows
`withdraw(1050, overdraft_protection := true)` (50 <= 100 under the
fixed ceiling), leaving balance -50, while `withdraw(1150, true)` is
rejected unchanged. -/
theorem normal_withdraw_eligibility_witness :
    ((mkAccount "W" 1000 .Normal).withdraw 1050 true 0).2 = .withdrew ∧
      ((mkAccount "W" 1000 .Normal).withdraw 1050 true 0).1.balance = -50 ∧
      (mkAccount "W" 1000 .Normal).withdraw 1150 true 0
        = (mkAccount "W" 1000 .Normal, .invalidWithdrawal) := by
  have h1 := (normal_withdraw_eligibility (mkAccount "W" 1000 .Normal) 1050 true 0 rfl rfl).1
    (Or.inr ⟨rfl, by norm_num [mkAccount]⟩)
  have h2 := (normal_withdraw_eligibility (mkAccount "W" 1000 .Normal) 1150 true 0 rfl rfl).2
    (by norm_num [mkAccount])
  refine ⟨by rw [h1], ?_, h2⟩
  rw [h1]
  norm_num [mkAccount]

/-- C6 counterexample: on an unlocked Normal account with balance 100,
`withdraw(-50, overdraft_protection := true)` is NOT rejected: the
overdraft branch of the source has no positivity test
(`amount <= balance + 100` alone), so the balance changes (to 150). -/
theorem nonpositive_withdraw_counterexample :
    ((mkAccount "N" 100 .Normal).withdraw (-50) true 0).1.balance ≠ 100 := by
  norm_num [Account.withdraw, mkAccount]

/-- C6 amended: for every amount a <= 0, `deposit(a)` reports an error
and changes nothing, and `withdraw(a, odp)` reports an error and changes
nothing on every Debit account and on every account when the overdraft
flag is off — but on an unlocked Normal account with the overdraft flag
set and a <= balance + 100, the withdrawal is accepted, decreasing the
balance by a (hence increasing it for negative a) and appending a
Withdrawal transaction. -/
theorem nonpositive_amount_handling (a : Account) (amount : ℚ) (odp : Bool) (now : Nat)
    (h : amount ≤ 0) :
    ((a.deposit amount now).1 = a ∧ (a.deposit amount now).2 ≠ .deposited) ∧
      (a.kind = .Debit →
        (a.withdraw amount odp now).1 = a ∧ (a.withdraw amount odp now).2 ≠ .withdrew) ∧
      (odp = false →
        (a.withdraw amount odp now).1 = a ∧ (a.withdraw amount odp now).2 ≠ .withdrew) ∧
      (a.kind = .Normal → odp = true → a.is_locked = false → amount ≤ a.balance + 100 →
        a.withdraw amount odp now =
          ({ a with balance := a.balance - amount,
                    transactions := a.transactions ++ [⟨.Withdrawal, amount, now⟩] },
           .withdrew)) := by
  have h0 : ¬ 0 < amount := not_lt.mpr h
  refine ⟨?_, ?_, ?_, ?_⟩
  · cases hl : a.is_locked <;> simp [Account.deposit, hl, h0]
  · intro hk
    cases hl : a.is_locked <;> simp [Account.withdraw, hk, hl, h0]
  · intro hodp
    cases hk : a.kind <;> cases hl : a.is_locked <;>
      simp [Account.withdraw, hk, hl, h0, hodp]
  · intro hk hodp hl hceil
    simp [Account.withdraw, hk, hl, hodp, hceil]

/-- Witness for the amended C6: on an unlocked Normal account with
balance 100, `deposit(-50)` and `withdraw(-50, false)` change nothing,
while `withdraw(-50, true)` succeeds and raises the balance to 150. -/
theorem nonpositive_amount_handling_witness :
    ((mkAccount "N" 100 .Normal).deposit (-50) 0).1 = mkAccount "N" 100 .Normal ∧
      ((mkAccount "N" 100 .Normal).withdraw (-50) false 0).1 = mkAccount "N" 100 .Normal ∧
      ((mkAccount "N" 100 .Normal).withdraw (-50) true 0).1.balance = 150 := by
  have hd := (nonpositive_amount_handling (mkAccount "N" 100 .Normal) (-50) false 0
    (by norm_num)).1.1
  have hw := ((nonpositive_amount_handling (mkAccount "N" 100 .Normal) (-50) false 0
    (by norm_num)).2.2.1 rfl).1
  have hn := (nonpositive_amount_handling (mkAccount "N" 100 .Normal) (-50) true 0
    (by norm_num)).2.2.2 rfl rfl rfl (by norm_num [mkAccount])
  refine ⟨hd, hw, ?_⟩
  rw [hn]
  norm_num [mkAccount]

/-- C7 counterexample: on an UNLOCKED Savings account with balance 100,
`withdrawal(50)` does not decrement the balance at all (it reports an
invalid withdrawal and changes nothing), refuting the claim that the
balance decrease is unconditional and happens for every amount. -/
theorem savings_withdrawal_counterexample :
    ((SavingsAccount.mk "S" 100 false []).withdrawal 50 0).1.balance ≠ 50 := by
  norm_num [SavingsAccount.withdrawal]

/-- C7 amended: `SavingsAccount.withdrawal` has an inverted lock check —
exactly when the account IS locked it decrements the balance by the
amount (no amount eligibility test) and appends a Withdrawal
transaction, reporting the withdrawal as performed; when the account is
unlocked it reports an invalid withdrawal and changes nothing (the
source's locked-report branch is dead code and is never reached). -/
theorem savings_withdrawal_inverted_lock (s : SavingsAccount) (amount : ℚ) (now : Nat) :
    (s.is_locked = true →
        s.withdrawal amount now =
          ({ s with balance := s.balance - amount,
                    transactions := s.transactions ++ [⟨.Withdrawal, amount, now⟩] },
           .withdrew)) ∧
      (s.is_locked = false → s.withdrawal amount now = (s, .invalidWithdrawal)) := by
  constructor <;> intro h <;> simp [SavingsAccount.withdrawal, h]

/-- Witness for the amended C7: a LOCKED Savings account with balance
100 loses 30 on `withdrawal(30)` (balance 70, Withdrawal recorded),
while the unlocked one is left unchanged. -/
theorem savings_withdrawal_inverted_lock_witness :
    ((SavingsAccount.mk "S" 100 true []).withdrawal 30 0).1.balance = 70 ∧
      ((SavingsAccount.mk "S" 100 true []).withdrawal 30 0).2 = .withdrew ∧
      (SavingsAccount.mk "S" 100 false []).withdrawal 30 0
        = (SavingsAccount.mk "S" 100 false [], .invalidWithdrawal) := by
  have h1 := (savings_withdrawal_inverted_lock (SavingsAccount.mk "S" 100 true []) 30 0).1 rfl
  have h2 := (savings_withdrawal_inverted_lock (SavingsAccount.mk "S" 100 false []) 30 0).2 rfl
  refine ⟨?_, by rw [h1], h2⟩
  rw [h1]
  norm_num

/-- C8: Savings interest formula — on an unlocked Savings account,
`calculate_interest(rate)` computes the interest as
balance + rate / 100 (not balance * rate / 100), adds exactly that
quantity to the balance (so the new balance is
2 * old balance + rate / 100), and appends an Interest transaction of
that amount; on a locked account it reports an error and changes
nothing. -/
theorem savings_interest_formula (s : SavingsAccount) (rate : ℚ) (now : Nat) :
    (s.is_locked = false →
        (s.calculate_interest rate now).1.balance = 2 * s.balance + rate / 100 ∧
        (s.calculate_interest rate now).1.transactions
          = s.transactions ++ [⟨.Interest, s.balance + rate / 100, now⟩] ∧
        (s.calculate_interest rate now).2 = .interestAdded) ∧
      (s.is_locked = true → s.calculate_interest rate now = (s, .lockedInterest)) := by
  constructor <;> intro h
  · refine ⟨?_, ?_, ?_⟩ <;> simp [SavingsAccount.calculate_interest, h]
    ring
  · simp [SavingsAccount.calculate_interest, h]

/-- Witness for C8: an unlocked Savings account with balance 1000 and
rate 100 ends with balance 2 * 1000 + 100 / 100 = 2001 and an Interest
transaction of amount 1001. -/
theorem savings_interest_formula_witness :
    ((SavingsAccount.mk "SV" 1000 false []).calculate_interest 100 0).1.balance = 2001 ∧
      ((SavingsAccount.mk "SV" 1000 false []).calculate_interest 100 0).1.transactions
        = [⟨.Interest, 1001, 0⟩] ∧
      ((SavingsAccount.mk "SV" 1000 false []).calculate_interest 100 0).2
        = .interestAdded := by
  have h := (savings_interest_formula (SavingsAccount.mk "SV" 1000 false []) 100 0).1 rfl
  refine ⟨?_, ?_, h.2.2⟩
  · rw [h.1]
    norm_num
  · rw [h.2.1]
    norm_num

/-- C9: the source's `Bank.create_account` rejects the "Savings" kind
with the hard error `ValueError("Invalid account type.")`, even though
the `SavingsAccount` class exists and the module's own demo script calls
`create_account("Savings", 2000)` — the creation-by-kind contract holds
only for "Normal" and "Debit". -/
theorem create_account_savings_error :
    Bank.create_account "Savings" "20001" 2000 = Except.error "Invalid account type."
      ∧ Bank.create_account "Normal" "20002" 1000
          = Except.ok (mkAccount "20002" 1000 .Normal)
      ∧ Bank.create_account "Debit" "20003" 500
          = Except.ok (mkAccount "20003" 500 .Debit) := by
  refine ⟨?_, rfl, ?_⟩ <;> simp [Bank.create_account, mkAccount]

/-- Every single operation step preserves the difference between the
balance and the signed sum of the history. -/
theorem step_preserves {a b : Account} (h : Step a b) :
    b.balance - historySum b.transactions = a.balance - historySum a.transactions := by
  cases h with
  | deposit amount now =>
    cases hl : a.is_locked <;>
      by_cases h0 : 0 < amount <;>
        simp [Account.deposit, hl, h0, historySum_append, Transaction.signedAmount]
  | withdraw amount odp now =>
    cases hk : a.kind <;> cases hl : a.is_locked <;>
      unfold Account.withdraw <;>
        rw [hk] <;>
          split_ifs <;>
            simp [historySum_append, Transaction.signedAmount] <;>
              ring
  | interest rate =>
    cases hk : a.kind <;> simp [Account.calculate_interest, hk]
  | lock =>
    rfl
  | unlock =>
    rfl
  | transferAsSender other amount tW tD tT =>
    by_cases hc : a.is_locked = false ∧ other.is_locked = false ∧
        0 < amount ∧ amount ≤ a.balance
    · obtain ⟨hs, hr, h0, hb⟩ := hc
      rw [transfer_eq a other amount tW tD tT hs hr h0 hb]
      simp [historySum_append, historySum, Transaction.signedAmount]
      ring
    · have hu := congrArg Prod.fst (transfer_unchanged a other amount tW tD tT hc).1
      rw [hu]
  | transferAsRecipient other amount tW tD tT =>
    by_cases hc : other.is_locked = false ∧ a.is_locked = false ∧
        0 < amount ∧ amount ≤ other.balance
    · obtain ⟨hs, hr, h0, hb⟩ := hc
      rw [transfer_eq other a amount tW tD tT hs hr h0 hb]
      simp [historySum_append, historySum, Transaction.signedAmount]
    · have hu := congrArg Prod.snd (transfer_unchanged other a amount tW tD tT hc).1
      rw [hu]

/-- C1: Balance/history invariant — for every account and every state
reachable from creation with an initial balance through any sequence of
deposit, withdraw, calculate_interest, lock, unlock and transfer
operations (as sender or as recipient), the balance equals the initial
balance plus the signed sum of the transaction history (Deposit and
Interest amounts positive, Withdrawal amounts negative, the Transfer
bookkeeping entries neutral). -/
theorem balance_history_invariant (number : String) (initial_balance : ℚ)
    (kind : AccountKind) (a : Account)
    (h : Reachable (mkAccount number initial_balance kind) a) :
    a.balance = initial_balance + historySum a.transactions := by
  induction h with
  | refl =>
    simp [mkAccount, historySum]
  | step hr hs ih =>
    have hp := step_preserves hs
    linarith

/-- Witness for C1: the account created with balance 1000 and then
receiving a deposit of 500 satisfies the invariant. -/
theorem balance_history_invariant_witness :
    ((mkAccount "A" 1000 AccountKind.Normal).deposit 500 0).1.balance
      = 1000 + historySum ((mkAccount "A" 1000 AccountKind.Normal).deposit 500 0).1.transactions :=
  balance_history_invariant "A" 1000 AccountKind.Normal _
    (Reachable.step Reachable.refl (Step.deposit _ 500 0))

/-- The authentication loop returns None and leaves the bank unchanged
when no customer in the scanned list matches the PIN. -/
theorem authenticateLoop_none (b : Bank) (l : List Customer) (pin token : String)
    (h : ∀ c ∈ l, c.authenticate pin = false) :
    authenticateLoop b l pin token = (b, none) := by
  induction l with
  | nil =>
    rfl
  | cons c rest ih =>
    have hc : c.authenticate pin = false := h c (List.mem_cons_self c rest)
    simp only [authenticateLoop, hc, Bool.false_eq_true, if_false]
    exact ih fun d hd => h d (List.mem_cons_of_mem c hd)

/-- The authentication loop stops at the first matching customer and
binds the session token to exactly that customer. -/
theorem authenticateLoop_first (b : Bank) (pin token : String) :
    ∀ (l : List Customer) (i : Nat) (hi : i < l.length),
      (l.get ⟨i, hi⟩).authenticate pin = true →
      (∀ j (hj : j < i), (l.get ⟨j, Nat.lt_trans hj hi⟩).authenticate pin = false) →
      authenticateLoop b l pin token =
        ({ b with active_sessions :=
            fun t => if t = token then some (l.get ⟨i, hi⟩) else b.active_sessions t },
         some token) := by
  intro l
  induction l with
  | nil =>
    intro i hi
    exact absurd hi (Nat.not_lt_zero i)
  | cons c rest ih =>
    intro i hi hmatch hbefore
    cases i with
    | zero =>
      simp only [List.get] at hmatch ⊢
      simp [authenticateLoop, hmatch]
    | succ n =>
      have hc : c.authenticate pin = false := hbefore 0 (Nat.succ_pos n)
      have hn : n < rest.length := Nat.lt_of_succ_lt_succ hi
      have hmatch2 : (rest.get ⟨n, hn⟩).authenticate pin = true := hmatch
      have hbefore2 : ∀ j (hj : j < n),
          (rest.get ⟨j, Nat.lt_trans hj hn⟩).authenticate pin = false :=
        fun j hj => hbefore (j + 1) (Nat.succ_lt_succ hj)
      simp only [authenticateLoop, hc, Bool.false_eq_true, if_false]
      exact ih n hn hmatch2 hbefore2

/-- C10: `Bank.authenticate_customer` scans registered customers in
order and binds the freshly issued session token to the FIRST customer
whose stored PIN is string-equal to the input (so among customers
sharing a PIN the earliest-registered wins); when no customer matches,
no session is created and None is returned. -/
theorem authenticate_first_match (b : Bank) (pin token : String) :
    ((∀ c ∈ b.customers, c.authenticate pin = false) →
        b.authenticate_customer pin token = (b, none)) ∧
      (∀ (i : Nat) (hi : i < b.customers.length),
        (b.customers.get ⟨i, hi⟩).authenticate pin = true →
        (∀ j (hj : j < i),
          (b.customers.get ⟨j, Nat.lt_trans hj hi⟩).authenticate pin = false) →
        (b.authenticate_customer pin token).2 = some token ∧
          (b.authenticate_customer pin token).1.active_sessions token
            = some (b.customers.get ⟨i, hi⟩)) := by
  constructor
  · intro h
    exact authenticateLoop_none b b.customers pin token h
  · intro i hi hm hb2
    rw [Bank.authenticate_customer,
      authenticateLoop_first b pin token b.customers i hi hm hb2]
    exact ⟨rfl, by simp⟩

/-- Witness for C10: two registered customers share the PIN "1111"; the
issued token is bound to the first-registered one (customer 1). -/
theorem authenticate_first_match_witness :
    ((Bank.mk [⟨1, [], "1111"⟩, ⟨2, [], "1111"⟩] fun _ => none).authenticate_customer
        "1111" "tok").2 = some "tok" ∧
      ((Bank.mk [⟨1, [], "1111"⟩, ⟨2, [], "1111"⟩] fun _ => none).authenticate_customer
          "1111" "tok").1.active_sessions "tok" = some ⟨1, [], "1111"⟩ := by
  have h := (authenticate_first_match
      (Bank.mk [⟨1, [], "1111"⟩, ⟨2, [], "1111"⟩] fun _ => none) "1111" "tok").2
    0 (by norm_num) rfl (fun j hj => absurd hj (Nat.not_lt_zero j))
  exact ⟨h.1, by simpa using h.2⟩

end QmeseBanking
